import Mathlib

/-!
Shallow embedding of the mood-based-discovery backend services:
the `ContextService` (context extraction from conversation text,
time-of-day derivation, weather lookup with fallback) and the
`YelpService` (recommendation client: caching, retry with backoff,
response formatting and error normalization).

Strings from the JavaScript runtime are modelled as `List Char`
where character-level scanning is needed, and as `String` elsewhere.
Numbers coming from JSON are modelled as `Rat` (the code performs no
arithmetic on them, only field copies, so this is lossless).
-/

set_option maxRecDepth 10000

/-- ASCII lower-casing of a character, as `String.prototype.toLowerCase`
acts on ASCII input. -/
def toLowerCh (c : Char) : Char :=
  if 'A' ≤ c ∧ c ≤ 'Z' then Char.ofNat (c.toNat + 32) else c

/-- Lower-case a character list. -/
def lowerStr (s : List Char) : List Char := s.map toLowerCh

/-- The character list of a string. -/
def chars (s : String) : List Char := s.data

/-- Does `needle` occur at the start of `hay`? -/
def isPrefixList : List Char → List Char → Bool
  | [], _ => true
  | _ :: _, [] => false
  | a :: as, b :: bs => a == b && isPrefixList as bs

/-- Substring containment, the semantics of `String.prototype.includes`. -/
def containsSub (hay needle : List Char) : Bool :=
  match hay with
  | [] => isPrefixList needle []
  | _ :: rest => isPrefixList needle hay || containsSub rest needle

/-! ## Regular-expression fragment used by the group-size patterns

The six group-size regexes of `ContextService.extractContextFromConversation`
use only word boundaries, fixed literals, `\s+`, and a single `(\d+)` capture
group.  The tokens below model exactly that fragment.  For these patterns
maximal-munch matching of `\d+` and `\s+` is equivalent to backtracking
matching, because the token following a `\d+` run can never start with a
digit and the token following a `\s+` run can never start with whitespace. -/

/-- One token of the regex fragment. -/
inductive RTok : Type
  | bnd : RTok
  | lit : List Char → RTok
  | sp : RTok
  | digits : RTok

/-- JavaScript regex word character (`\w`): ASCII alphanumeric or underscore. -/
def isWordChar (c : Char) : Bool :=
  ('a' ≤ c && c ≤ 'z') || ('A' ≤ c && c ≤ 'Z') || ('0' ≤ c && c ≤ '9') || c == '_'

/-- JavaScript regex digit (`\d`). -/
def isDigitCh (c : Char) : Bool := '0' ≤ c && c ≤ '9'

/-- JavaScript regex whitespace (`\s`), restricted to its ASCII members. -/
def isSpaceCh (c : Char) : Bool :=
  c == ' ' || c == '\t' || c == '\n' || c == '\r' ||
  c == Char.ofNat 11 || c == Char.ofNat 12

/-- Word-boundary test between the previously consumed character (if any)
and the rest of the input. -/
def bndHolds (prev : Option Char) (rest : List Char) : Bool :=
  let a := match prev with | some c => isWordChar c | none => false
  let b := match rest with | c :: _ => isWordChar c | [] => false
  a != b

/-- The last character of `consumed`, or `prev` if nothing was consumed. -/
def newPrev (consumed : List Char) (prev : Option Char) : Option Char :=
  match consumed.reverse with
  | c :: _ => some c
  | [] => prev

/-- Match a token list at the current position; returns the digits captured
by the `(\d+)` group on success. -/
def matchToks : Option Char → List RTok → List Char → Option (List Char)
  | _, [], _ => some []
  | prev, RTok.bnd :: ts, rest =>
      if bndHolds prev rest then matchToks prev ts rest else none
  | prev, RTok.lit l :: ts, rest =>
      if isPrefixList l rest then
        matchToks (newPrev l prev) ts (rest.drop l.length)
      else none
  | prev, RTok.sp :: ts, rest =>
      let run := rest.takeWhile isSpaceCh
      if run.isEmpty then none
      else matchToks (newPrev run prev) ts (rest.drop run.length)
  | prev, RTok.digits :: ts, rest =>
      let run := rest.takeWhile isDigitCh
      if run.isEmpty then none
      else (matchToks (newPrev run prev) ts (rest.drop run.length)).map
        (fun caps => run ++ caps)

/-- Leftmost match of a token list in the input, as `String.prototype.match`
finds the leftmost regex match.  Returns the captured digits. -/
def searchToks (toks : List RTok) : Option Char → List Char → Option (List Char)
  | prev, rest =>
      match matchToks prev toks rest with
      | some caps => some caps
      | none =>
          match rest with
          | [] => none
          | c :: cs => searchToks toks (some c) cs

/-- First match of a pattern over a whole text (started before position 0). -/
def regexCapture (toks : List RTok) (text : List Char) : Option (List Char) :=
  searchToks toks none text

/-- `parseInt(digits, 10)` on a nonempty run of decimal digits. -/
def parseIntDigits (l : List Char) : Nat :=
  l.foldl (fun n c => n * 10 + (c.toNat - 48)) 0

/-! ## ContextService.extractContextFromConversation -/

/-- A conversation message (`role`, `content`); the timestamp plays no role
in context extraction. -/
structure Message where
  role : String
  content : String
deriving DecidableEq

/-- The fields of `Partial<ConversationContext>` that
`extractContextFromConversation` can populate. -/
structure ConversationContextP where
  mood : Option String := none
  occasion : Option String := none
  groupSize : Option Nat := none
deriving DecidableEq

/-- Keywords for mood detection, in source order. -/
def moodKeywords : List (String × List String) :=
  [("romantic", ["romantic", "date", "intimate", "cozy", "candlelit"]),
   ("casual", ["casual", "relaxed", "laid-back", "chill"]),
   ("energetic", ["energetic", "lively", "vibrant", "bustling", "busy"]),
   ("quiet", ["quiet", "peaceful", "calm", "serene", "tranquil"]),
   ("upscale", ["upscale", "fancy", "elegant", "sophisticated", "fine dining"])]

/-- Keywords for occasion detection, in source order. -/
def occasionKeywords : List (String × List String) :=
  [("date night", ["date", "romantic dinner", "anniversary"]),
   ("business meeting", ["business", "meeting", "professional", "client"]),
   ("group hangout", ["friends", "group", "hangout", "gathering"]),
   ("family dinner", ["family", "kids", "children"]),
   ("celebration", ["celebration", "birthday", "party", "special occasion"])]

/-- The six group-size regex patterns, in source order:
`\b(\d+)\s+people\b`, `\bgroup\s+of\s+(\d+)\b`, `\bparty\s+of\s+(\d+)\b`,
`\b(\d+)\s+of\s+us\b`, `\bfor\s+(\d+)\b`, `\bjust\s+for\s+(\d+)\b`
(all case-insensitive; the scanned text is already lower-cased). -/
def groupSizePatterns : List (List RTok) :=
  [[RTok.bnd, RTok.digits, RTok.sp, RTok.lit (chars "people"), RTok.bnd],
   [RTok.bnd, RTok.lit (chars "group"), RTok.sp, RTok.lit (chars "of"), RTok.sp,
    RTok.digits, RTok.bnd],
   [RTok.bnd, RTok.lit (chars "party"), RTok.sp, RTok.lit (chars "of"), RTok.sp,
    RTok.digits, RTok.bnd],
   [RTok.bnd, RTok.digits, RTok.sp, RTok.lit (chars "of"), RTok.sp,
    RTok.lit (chars "us"), RTok.bnd],
   [RTok.bnd, RTok.lit (chars "for"), RTok.sp, RTok.digits, RTok.bnd],
   [RTok.bnd, RTok.lit (chars "just"), RTok.sp, RTok.lit (chars "for"), RTok.sp,
    RTok.digits, RTok.bnd]]

/-- Solo-indicating phrases checked before any numeric pattern. -/
def soloPhrases : List String := ["just me", "by myself", "solo", "just for me"]

/-- Join character lists with a single space (`Array.prototype.join(' ')`). -/
def joinSpace : List (List Char) → List Char
  | [] => []
  | [x] => x
  | x :: xs => x ++ ' ' :: joinSpace xs

/-- The lower-cased concatenation of the user messages, the scan buffer of
`extractContextFromConversation`. -/
def conversationText (messages : List Message) : List Char :=
  joinSpace ((messages.filter (fun m => m.role == "user")).map
    (fun m => lowerStr (chars m.content)))

/-- First table entry one of whose keywords occurs as a substring of `text`
(first-match-wins over the table order). -/
def firstKeywordMatch (table : List (String × List String)) (text : List Char) :
    Option String :=
  match table with
  | [] => none
  | (name, kws) :: rest =>
      if kws.any (fun kw => containsSub text (chars kw)) then some name
      else firstKeywordMatch rest text

/-- Scan the numeric group-size patterns in order; the first pattern with a
match whose captured integer lies in (0, 100] wins. -/
def findNumericGroupSize : List (List RTok) → List Char → Option Nat
  | [], _ => none
  | p :: ps, text =>
      match regexCapture p text with
      | some digs =>
          let size := parseIntDigits digs
          if 0 < size ∧ size ≤ 100 then some size
          else findNumericGroupSize ps text
      | none => findNumericGroupSize ps text

/-- Is any solo-indicating phrase a substring of `text`? -/
def hasSoloIndicator (text : List Char) : Bool :=
  soloPhrases.any (fun p => containsSub text (chars p))

/-- Group-size resolution: solo indicators first (forcing group size 1),
otherwise the numeric patterns. -/
def extractGroupSize (text : List Char) : Option Nat :=
  if hasSoloIndicator text then some 1
  else findNumericGroupSize groupSizePatterns text

/-- `ContextService.extractContextFromConversation`. -/
def extractContextFromConversation (messages : List Message) :
    ConversationContextP :=
  let text := conversationText messages
  { mood := firstKeywordMatch moodKeywords text
    occasion := firstKeywordMatch occasionKeywords text
    groupSize := extractGroupSize text }

/-! ## ContextService: time context and weather fallback -/

/-- The result of `ContextService.getTimeContext` (the `timestamp` field,
a raw `Date`, is omitted; the claims concern `timeOfDay`). -/
structure TimeContext where
  timeOfDay : String
  dayOfWeek : String
deriving DecidableEq

/-- The time-of-day bucketing of `getTimeContext`, as a function of the
local hour returned by `Date.prototype.getHours` (a value in [0, 24)). -/
def timeOfDayOfHour (hour : Nat) : String :=
  if 5 ≤ hour ∧ hour < 12 then "morning"
  else if 12 ≤ hour ∧ hour < 17 then "afternoon"
  else if 17 ≤ hour ∧ hour < 21 then "evening"
  else "night"

/-- `ContextService.getTimeContext`, with the wall clock supplied as the
local hour and the locale long day name. -/
def getTimeContext (hour : Nat) (dayOfWeek : String) : TimeContext :=
  { timeOfDay := timeOfDayOfHour hour, dayOfWeek := dayOfWeek }

/-- One element of the `weather` array of an OpenWeatherMap response. -/
structure WeatherItem where
  main : String
  description : String
deriving DecidableEq

/-- An OpenWeatherMap `/weather` response body. -/
structure OpenWeatherResponse where
  weather : List WeatherItem
  temp : Rat
deriving DecidableEq

/-- The weather context assembled from a successful weather response. -/
structure WeatherContext where
  condition : String
  temperature : Rat
  description : String
deriving DecidableEq

/-- A caller-supplied location. -/
structure LocationContext where
  lat : Rat
  lng : Rat
  name : Option String := none
deriving DecidableEq

/-- The result of `ContextService.getCurrentContext`. -/
structure CurrentContext where
  time : TimeContext
  weather : Option WeatherContext
  location : LocationContext
deriving DecidableEq

/-- The `ContextService` state after construction: `weatherApiKey` is `some`
exactly when a truthy key was configured (and then `weatherClient` exists). -/
structure ContextServiceState where
  weatherApiKey : Option String
deriving DecidableEq

/-- `ContextService.getWeatherWithFallback`.  The outcome of the HTTP GET is
supplied as `fetch` (`Except.error` covers network errors, non-2xx responses
and timeouts).  The returned flag records whether a weather HTTP call was
issued.  Reading `weather[0]` of a response with an empty `weather` array
throws inside the `try`, so it is also absorbed by the `catch`. -/
def getWeatherWithFallback (st : ContextServiceState)
    (fetch : Except String OpenWeatherResponse) :
    Except String (Option WeatherContext) × Bool :=
  match st.weatherApiKey with
  | none => (Except.ok none, false)
  | some _ =>
      match fetch with
      | Except.ok resp =>
          match resp.weather with
          | w :: _ =>
              (Except.ok (some ⟨w.main, resp.temp, w.description⟩), true)
          | [] => (Except.ok none, true)
      | Except.error _ => (Except.ok none, true)

/-- `ContextService.getCurrentContext`: assembles time, weather (with
fallback) and the caller's location.  An `Except.error` result would model
an exception propagating to the caller. -/
def getCurrentContext (st : ContextServiceState) (hour : Nat)
    (dayOfWeek : String) (location : LocationContext)
    (fetch : Except String OpenWeatherResponse) :
    Except String CurrentContext × Bool :=
  let time := getTimeContext hour dayOfWeek
  match getWeatherWithFallback st fetch with
  | (Except.ok weather, called) =>
      (Except.ok { time := time, weather := weather, location := location }, called)
  | (Except.error e, called) => (Except.error e, called)

/-! ## YelpService: error model and retry loop -/

/-- A structured error body attached to a remote error response
(`data.error`, with an optional `description`). -/
structure ErrBody where
  description : Option String
deriving DecidableEq

/-- A failure thrown by one request attempt.  `isAxios` models
`axios.isAxiosError`; `status` models `error.response?.status` (absent for
transport failures and timeouts); `dataError` models
`error.response?.data?.error`; `msg` is the failure's own message. -/
structure ReqError where
  isAxios : Bool
  status : Option Nat
  dataError : Option ErrBody
  msg : String
deriving DecidableEq

/-- The guard `axios.isAxiosError(error) && error.response?.status &&
error.response.status < 500` deciding that a failure is a client error and
must not be retried (a JavaScript status of `0` or `undefined` is falsy). -/
def isClientError (e : ReqError) : Bool :=
  e.isAxios &&
    (match e.status with
     | some s => decide (s ≠ 0) && decide (s < 500)
     | none => false)

/-- Outcome of `YelpService.retryRequest`: the value or the thrown error
(`none` standing for a thrown `null` `lastError`), the list of backoff
delays slept in milliseconds, and the number of attempts issued. -/
structure RetryOut (T : Type) where
  result : Except (Option ReqError) T
  delays : List Nat
  attempts : Nat

/-- The loop body of `retryRequest`; `outs n` is the outcome of attempt
number `n` (0-based), `fuel` counts the remaining loop iterations, so the
current attempt index is `maxRetries - fuel`. -/
def retryGo {T : Type} (outs : Nat → Except ReqError T) (maxRetries : Nat) :
    Nat → Option ReqError → List Nat → Nat → RetryOut T
  | 0, lastError, delays, attempts => ⟨Except.error lastError, delays, attempts⟩
  | fuel + 1, _, delays, attempts =>
      let attempt := maxRetries - (fuel + 1)
      match outs attempt with
      | Except.ok v => ⟨Except.ok v, delays, attempts + 1⟩
      | Except.error e =>
          if isClientError e then ⟨Except.error (some e), delays, attempts + 1⟩
          else if attempt < maxRetries - 1 then
            retryGo outs maxRetries fuel (some e)
              (delays ++ [2 ^ attempt * 1000]) (attempts + 1)
          else retryGo outs maxRetries fuel (some e) delays (attempts + 1)

/-- `YelpService.retryRequest`: up to `maxRetries` attempts, no retry on
client errors, exponential backoff (`2^attempt * 1000` ms) between retries,
and the last error rethrown once attempts are exhausted. -/
def retryRequest {T : Type} (outs : Nat → Except ReqError T)
    (maxRetries : Nat) : RetryOut T :=
  retryGo outs maxRetries maxRetries none [] 0

/-- `YelpService.handleError`: normalizes a caught failure to the single
message string carried by the thrown `Error`.  `error = none` models a
thrown non-error value such as `null`. -/
def handleError (error : Option ReqError) (message : String) : String :=
  match error with
  | none => message
  | some e =>
      if e.isAxios then
        if e.status = some 401 then "Yelp API authentication failed"
        else if e.status = some 429 then "Yelp API rate limit exceeded"
        else if (match e.status with
                 | some s => decide (s ≠ 0) && decide (500 ≤ s)
                 | none => false) then
          "Yelp API server error: " ++ message
        else
          match e.dataError with
          | some body =>
              "Yelp API error: " ++
                (match body.description with
                 | some d => if d = "" then message else d
                 | none => message)
          | none => message
      else message

/-! ## YelpService: response formatting -/

/-- A coordinate pair in the application's shape. -/
structure Coordinates where
  lat : Rat
  lng : Rat
deriving DecidableEq

/-- A coordinate pair in the remote API's shape. -/
structure YelpCoordinates where
  latitude : Rat
  longitude : Rat
deriving DecidableEq

/-- The remote location object used to build the address string. -/
structure YelpLocation where
  address1 : String
  city : String
  state : String
  zip_code : String
deriving DecidableEq

/-- A remote category object (only its `title` is used). -/
structure YelpCategory where
  title : String
deriving DecidableEq

/-- The application's normalized place record. -/
structure Place where
  placeId : String
  name : String
  address : String
  rating : Rat
  categories : List String
  photos : List String
  coordinates : Coordinates
  phone : Option String
  hours : Option String
  priceRange : Option String
deriving DecidableEq

/-- A remote place-details response (`hours` entries are opaque here:
`formatHours` only inspects presence and length). -/
structure YelpPlaceDetailsResponse where
  id : String
  name : String
  rating : Rat
  coordinates : YelpCoordinates
  location : YelpLocation
  categories : List YelpCategory
  photos : Option (List String)
  phone : Option String
  hours : Option (List Unit)
  price : Option String
deriving DecidableEq

/-- One business of a remote search response. -/
structure YelpBusiness where
  id : String
  name : String
  rating : Rat
  coordinates : YelpCoordinates
  location : YelpLocation
  categories : List YelpCategory
  image_url : String
  phone : Option String
  price : Option String
deriving DecidableEq

/-- A recommendation of a remote chat response (only the fields read by
`parseRecommendations`). -/
structure YelpRec where
  place_id : String
  name : String
  relevance_score : Rat
  reasoning : Option String
deriving DecidableEq

/-- A remote chat response. -/
structure YelpChatResponse where
  response : String
  recommendations : Option (List YelpRec)
deriving DecidableEq

/-- The application's normalized recommendation record. -/
structure Recommendation where
  placeId : String
  placeName : String
  relevanceScore : Rat
  reasoning : Option String
deriving DecidableEq

/-- The result of `sendChatMessage`. -/
structure ChatResult where
  response : String
  recommendations : List Recommendation
deriving DecidableEq

/-- `YelpService.formatAddress`. -/
def formatAddress (location : YelpLocation) : String :=
  location.address1 ++ ", " ++ location.city ++ ", " ++ location.state ++
    " " ++ location.zip_code

/-- `YelpService.formatHours`: absent or empty hours yield no hours string. -/
def formatHours (hours : Option (List Unit)) : Option String :=
  match hours with
  | none => none
  | some l => if l.length = 0 then none else some "See Yelp for hours"

/-- `YelpService.parseRecommendations`: a missing list normalizes to `[]`,
otherwise each entry is field-renamed. -/
def parseRecommendations (recommendations : Option (List YelpRec)) :
    List Recommendation :=
  match recommendations with
  | none => []
  | some recs =>
      recs.map (fun rec =>
        { placeId := rec.place_id
          placeName := rec.name
          relevanceScore := rec.relevance_score
          reasoning := rec.reasoning })

/-- `YelpService.formatPlaceDetails`. -/
def formatPlaceDetails (response : YelpPlaceDetailsResponse) : Place :=
  { placeId := response.id
    name := response.name
    address := formatAddress response.location
    rating := response.rating
    categories := response.categories.map YelpCategory.title
    photos := response.photos.getD []
    coordinates := { lat := response.coordinates.latitude
                     lng := response.coordinates.longitude }
    phone := response.phone
    hours := formatHours response.hours
    priceRange := response.price }

/-- `YelpService.formatSearchResult` (a truthy `image_url` becomes a
one-element photo list; no hours field is set). -/
def formatSearchResult (business : YelpBusiness) : Place :=
  { placeId := business.id
    name := business.name
    address := formatAddress business.location
    rating := business.rating
    categories := business.categories.map YelpCategory.title
    photos := if business.image_url = "" then [] else [business.image_url]
    coordinates := { lat := business.coordinates.latitude
                     lng := business.coordinates.longitude }
    phone := business.phone
    hours := none
    priceRange := business.price }

/-! ## YelpService: cache and operations

The service holds one `Map<string, CacheEntry<any>>`; the untyped `any`
payload is modelled by the sum `CacheVal`, and the untyped `return cached`
of each operation by an operation result of type `CacheVal`.  Timestamps
are `Int` milliseconds (`Date.now()`). -/

/-- A cached payload: chat results, place details, or search results. -/
inductive CacheVal : Type
  | chat : ChatResult → CacheVal
  | place : Place → CacheVal
  | places : List Place → CacheVal
deriving DecidableEq

/-- A cache entry: payload plus the `Date.now()` at which it was stored. -/
structure CacheEntry where
  data : CacheVal
  timestamp : Int
deriving DecidableEq

/-- The cache map, as an association list with `Map` get/set/delete
semantics. -/
def YelpCache : Type := List (String × CacheEntry)

/-- `Map.prototype.get`. -/
def cacheLookup (cache : YelpCache) (key : String) : Option CacheEntry :=
  match cache with
  | [] => none
  | (k, e) :: rest => if k = key then some e else cacheLookup rest key

/-- `Map.prototype.set`: overwrite the existing entry or append a new one. -/
def cacheSet (cache : YelpCache) (key : String) (e : CacheEntry) : YelpCache :=
  match cache with
  | [] => [(key, e)]
  | (k, v) :: rest =>
      if k = key then (key, e) :: rest else (k, v) :: cacheSet rest key e

/-- `Map.prototype.delete`. -/
def cacheErase (cache : YelpCache) (key : String) : YelpCache :=
  match cache with
  | [] => []
  | (k, v) :: rest =>
      if k = key then rest else (k, v) :: cacheErase rest key

/-- `CACHE_TTL = 5 * 60 * 1000` milliseconds. -/
def CACHE_TTL : Int := 5 * 60 * 1000

/-- `YelpService.generateCacheKey`; `params` stands for
`JSON.stringify(params)`, whose serialized text is taken as given. -/
def generateCacheKey (type : String) (params : String) : String :=
  type ++ ":" ++ params

/-- `YelpService.getFromCache`: a missing entry is a miss; an entry older
than the TTL is deleted and is a miss; otherwise the entry's data is
returned.  Returns the (possibly pruned) cache alongside. -/
def getFromCache (cache : YelpCache) (key : String) (now : Int) :
    Option CacheVal × YelpCache :=
  match cacheLookup cache key with
  | none => (none, cache)
  | some entry =>
      if now - entry.timestamp > CACHE_TTL then (none, cacheErase cache key)
      else (some entry.data, cache)

/-- `YelpService.setCache`: store the data stamped with the current time. -/
def setCache (cache : YelpCache) (key : String) (data : CacheVal)
    (now : Int) : YelpCache :=
  cacheSet cache key { data := data, timestamp := now }

/-- The `YelpService` instance state after construction. -/
structure YelpState where
  apiKey : String
  cache : YelpCache

/-- JavaScript `a || b` on optional strings (an empty string is falsy). -/
def jsOr (a b : Option String) : Option String :=
  match a with
  | some s => if s = "" then b else some s
  | none => b

/-- The `YelpService` constructor: `apiKey || process.env.YELP_API_KEY`
must be truthy, else it throws `Yelp API key is required`; on success the
cache starts empty. -/
def yelpConstructor (apiKey envKey : Option String) : Except String YelpState :=
  match jsOr apiKey envKey with
  | none => Except.error "Yelp API key is required"
  | some k =>
      if k = "" then Except.error "Yelp API key is required"
      else Except.ok { apiKey := k, cache := [] }

/-- The observable outcome of one operation call: the returned value or the
thrown message, the cache afterwards, and the number of network attempts
issued. -/
structure OpOut where
  result : Except String CacheVal
  cache : YelpCache
  netCalls : Nat

/-- `YelpService.sendChatMessage`.  `params` is the serialized
`{ message, context }` cache-key payload; `net n` is the outcome of the
`n`-th POST attempt to `/v2/ai/chat`. -/
def sendChatMessage (cache : YelpCache) (params : String)
    (net : Nat → Except ReqError YelpChatResponse) (now : Int) : OpOut :=
  let cacheKey := generateCacheKey "chat" params
  match getFromCache cache cacheKey now with
  | (some cached, cache') => ⟨Except.ok cached, cache', 0⟩
  | (none, cache') =>
      let r := retryRequest net 3
      match r.result with
      | Except.ok resp =>
          let result : ChatResult :=
            { response := resp.response
              recommendations :=
                parseRecommendations (some (resp.recommendations.getD [])) }
          ⟨Except.ok (CacheVal.chat result),
            setCache cache' cacheKey (CacheVal.chat result) now, r.attempts⟩
      | Except.error e =>
          ⟨Except.error (handleError e "Failed to send chat message"),
            cache', r.attempts⟩

/-- `YelpService.getPlaceDetails`.  `params` is the serialized
`{ placeId }`; `net n` is the outcome of the `n`-th GET attempt. -/
def getPlaceDetails (cache : YelpCache) (placeId : String) (params : String)
    (net : Nat → Except ReqError YelpPlaceDetailsResponse) (now : Int) : OpOut :=
  let cacheKey := generateCacheKey "place" params
  match getFromCache cache cacheKey now with
  | (some cached, cache') => ⟨Except.ok cached, cache', 0⟩
  | (none, cache') =>
      let r := retryRequest net 3
      match r.result with
      | Except.ok resp =>
          let place := formatPlaceDetails resp
          ⟨Except.ok (CacheVal.place place),
            setCache cache' cacheKey (CacheVal.place place) now, r.attempts⟩
      | Except.error e =>
          ⟨Except.error
              (handleError e ("Failed to get place details for " ++ placeId)),
            cache', r.attempts⟩

/-- A remote search response (`YelpSearchResponse`). -/
structure YelpSearchResponseT where
  businesses : List YelpBusiness
deriving DecidableEq

/-- `YelpService.searchPlaces`.  `params` is the serialized
`{ query, location, filters }`; `net n` is the outcome of the `n`-th GET
attempt to `/v3/businesses/search`. -/
def searchPlaces (cache : YelpCache) (params : String)
    (net : Nat → Except ReqError YelpSearchResponseT) (now : Int) : OpOut :=
  let cacheKey := generateCacheKey "search" params
  match getFromCache cache cacheKey now with
  | (some cached, cache') => ⟨Except.ok cached, cache', 0⟩
  | (none, cache') =>
      let r := retryRequest net 3
      match r.result with
      | Except.ok resp =>
          let places := resp.businesses.map formatSearchResult
          ⟨Except.ok (CacheVal.places places),
            setCache cache' cacheKey (CacheVal.places places) now, r.attempts⟩
      | Except.error e =>
          ⟨Except.error (handleError e "Failed to search places"),
            cache', r.attempts⟩

/-- A failure that the retry loop treats as retryable per the spec's
wording: no HTTP status at all, or a status of at least 500. -/
def serverFailure (e : ReqError) : Prop :=
  e.status = none ∨ ∃ s, e.status = some s ∧ 500 ≤ s

/-- The normalized result `sendChatMessage` builds from a successful remote
chat response. -/
def chatResultOf (resp : YelpChatResponse) : ChatResult :=
  { response := resp.response
    recommendations := parseRecommendations (some (resp.recommendations.getD [])) }

/-! ## Helper lemmas -/

theorem parseRecommendations_length (recs : List YelpRec) :
    (parseRecommendations (some recs)).length = recs.length := by
  simp [parseRecommendations]

theorem cacheLookup_cacheSet_self (cache : YelpCache) (key : String)
    (e : CacheEntry) : cacheLookup (cacheSet cache key e) key = some e := by
  induction cache with
  | nil => simp [cacheSet, cacheLookup]
  | cons hd tl ih =>
      obtain ⟨k, v⟩ := hd
      by_cases hk : k = key
      · simp [cacheSet, cacheLookup, hk]
      · simp [cacheSet, cacheLookup, hk, ih]

theorem isClientError_false_of_serverFailure {e : ReqError}
    (h : serverFailure e) : isClientError e = false := by
  rcases h with h | ⟨s, hs, h5⟩
  · simp [isClientError, h]
  · simp [isClientError, hs]
    intro
    omega

/-! ## Claims -/

/-- C8: for every local hour `h`, the time-of-day of the context assembler
is `morning` on [5,12), `afternoon` on [12,17), `evening` on [17,21), and
`night` otherwise (h in [0,5) or [21,24)). -/
theorem C8_timeOfDay_buckets :
    ∀ (h : Fin 24) (day : String),
      ((5 ≤ h.val ∧ h.val < 12) →
        (getTimeContext h.val day).timeOfDay = "morning") ∧
      ((12 ≤ h.val ∧ h.val < 17) →
        (getTimeContext h.val day).timeOfDay = "afternoon") ∧
      ((17 ≤ h.val ∧ h.val < 21) →
        (getTimeContext h.val day).timeOfDay = "evening") ∧
      ((h.val < 5 ∨ 21 ≤ h.val) →
        (getTimeContext h.val day).timeOfDay = "night") := by
  intro h day
  simp only [getTimeContext]
  revert h
  decide

/-- Witness for C8 at concrete hours of each bucket. -/
theorem C8_witness :
    (getTimeContext 9 "Monday").timeOfDay = "morning" ∧
    (getTimeContext 13 "Monday").timeOfDay = "afternoon" ∧
    (getTimeContext 19 "Monday").timeOfDay = "evening" ∧
    (getTimeContext 22 "Monday").timeOfDay = "night" :=
  ⟨(C8_timeOfDay_buckets ⟨9, by decide⟩ "Monday").1 (by decide),
   (C8_timeOfDay_buckets ⟨13, by decide⟩ "Monday").2.1 (by decide),
   (C8_timeOfDay_buckets ⟨19, by decide⟩ "Monday").2.2.1 (by decide),
   (C8_timeOfDay_buckets ⟨22, by decide⟩ "Monday").2.2.2 (by decide)⟩

/-- C10: constructing a `YelpService` with no API key argument and no
`YELP_API_KEY` environment value throws `Yelp API key is required`; with a
key present (as argument or environment), construction succeeds with an
empty cache. -/
theorem C10_yelpConstructor :
    (yelpConstructor none none = Except.error "Yelp API key is required") ∧
    (∀ (s : String) (env : Option String), s ≠ "" →
      yelpConstructor (some s) env = Except.ok ⟨s, []⟩) ∧
    (∀ s : String, s ≠ "" →
      yelpConstructor none (some s) = Except.ok ⟨s, []⟩) := by
  refine ⟨rfl, ?_, ?_⟩
  · intro s env h
    simp [yelpConstructor, jsOr, h]
  · intro s h
    simp [yelpConstructor, jsOr, h]

/-- Witness for C10 with a concrete key. -/
theorem C10_witness :
    yelpConstructor (some "test-api-key") none =
      Except.ok ⟨"test-api-key", []⟩ :=
  C10_yelpConstructor.2.1 "test-api-key" none (by decide)

/-- C5: both formatters map remote `{latitude, longitude}` losslessly to
`{lat, lng}` for every coordinate pair in [-90,90] × [-180,180]. -/
theorem C5_coordinate_roundtrip (lat lng : Rat)
    (h1 : -90 ≤ lat) (h2 : lat ≤ 90) (h3 : -180 ≤ lng) (h4 : lng ≤ 180) :
    (∀ r : YelpPlaceDetailsResponse, r.coordinates = ⟨lat, lng⟩ →
      (formatPlaceDetails r).coordinates = ⟨lat, lng⟩) ∧
    (∀ b : YelpBusiness, b.coordinates = ⟨lat, lng⟩ →
      (formatSearchResult b).coordinates = ⟨lat, lng⟩) := by
  constructor
  · intro r hr
    simp [formatPlaceDetails, hr]
  · intro b hb
    simp [formatSearchResult, hb]

/-- Witness for C5 at the boundary pair (90, -180). -/
theorem C5_witness :
    (formatPlaceDetails
      ⟨"id", "name", 4, ⟨90, -180⟩, ⟨"1 Main St", "SF", "CA", "94100"⟩,
        [], none, none, none, none⟩).coordinates =
      (⟨90, -180⟩ : Coordinates) :=
  (C5_coordinate_roundtrip 90 (-180) (by norm_num) (by norm_num)
      (by norm_num) (by norm_num)).1
    ⟨"id", "name", 4, ⟨90, -180⟩, ⟨"1 Main St", "SF", "CA", "94100"⟩,
      [], none, none, none, none⟩ rfl

/-- C9: with no weather API key configured the context assembler returns
successfully with no weather and no weather HTTP call; with a key, a failed
weather lookup (and even a malformed empty `weather` array) still returns
successfully with no weather — a weather failure never propagates. -/
theorem C9_weather_fallback :
    (∀ (hour : Nat) (day : String) (loc : LocationContext)
        (fetch : Except String OpenWeatherResponse),
      getCurrentContext ⟨none⟩ hour day loc fetch =
        (Except.ok ⟨getTimeContext hour day, none, loc⟩, false)) ∧
    (∀ (k : String) (hour : Nat) (day : String) (loc : LocationContext)
        (err : String),
      getCurrentContext ⟨some k⟩ hour day loc (Except.error err) =
        (Except.ok ⟨getTimeContext hour day, none, loc⟩, true)) ∧
    (∀ (k : String) (hour : Nat) (day : String) (loc : LocationContext)
        (temp : Rat),
      getCurrentContext ⟨some k⟩ hour day loc (Except.ok ⟨[], temp⟩) =
        (Except.ok ⟨getTimeContext hour day, none, loc⟩, true)) :=
  ⟨fun _ _ _ _ => rfl, fun _ _ _ _ _ => rfl, fun _ _ _ _ _ => rfl⟩

/-- C7: a solo-indicator phrase in the concatenated lower-cased user text
forces group size 1 regardless of the numeric patterns; otherwise the
group size is whatever the ordered numeric pattern scan yields. -/
theorem C7_solo_overrides (messages : List Message) :
    (hasSoloIndicator (conversationText messages) = true →
      (extractContextFromConversation messages).groupSize = some 1) ∧
    (hasSoloIndicator (conversationText messages) = false →
      (extractContextFromConversation messages).groupSize =
        findNumericGroupSize groupSizePatterns (conversationText messages)) := by
  constructor <;> intro h <;>
    simp [extractContextFromConversation, extractGroupSize, h]

/-- Witness for C7: "solo" forces group size 1 even though the numeric
pattern `\b(\d+)\s+people\b` would capture 5 from the same text. -/
theorem C7_witness :
    (extractContextFromConversation
      [⟨"user", "solo trip but maybe 5 people"⟩]).groupSize = some 1 ∧
    findNumericGroupSize groupSizePatterns
      (conversationText [⟨"user", "solo trip but maybe 5 people"⟩]) =
      some 5 :=
  ⟨(C7_solo_overrides [⟨"user", "solo trip but maybe 5 people"⟩]).1
      (by decide),
   by decide⟩

/-- C1 counterexample: contrary to the claim, the extractor does set an
occasion on both of the first two example inputs — "romantic dinner" is an
occasion keyword for `date night`, and "group" is an occasion keyword for
`group hangout` — so neither output is limited to the fields the claim
lists. -/
theorem C1_counterexample :
    (extractContextFromConversation
      [⟨"user", "Looking for a romantic dinner for 2 people"⟩]).occasion =
      some "date night" ∧
    (extractContextFromConversation
      [⟨"user", "Need a place for a group of 8"⟩]).occasion =
      some "group hangout" := by
  decide

/-- C1 (amended): input "Looking for a romantic dinner for 2 people" yields
`{mood: "romantic", occasion: "date night", groupSize: 2}`; input "Need a
place for a group of 8" yields `{occasion: "group hangout", groupSize: 8}`;
input "Hello" yields the empty context. -/
theorem C1_extraction_examples :
    extractContextFromConversation
      [⟨"user", "Looking for a romantic dinner for 2 people"⟩] =
      ⟨some "romantic", some "date night", some 2⟩ ∧
    extractContextFromConversation
      [⟨"user", "Need a place for a group of 8"⟩] =
      ⟨none, some "group hangout", some 8⟩ ∧
    extractContextFromConversation [⟨"user", "Hello"⟩] = ⟨none, none, none⟩ := by
  decide

/-- C4 counterexample: for a failure that is not a remote structured error
(here a non-axios failure whose own message is "boom"), `handleError`
surfaces the operation's context string, not the original failure's
message, contradicting the claim's final clause. -/
theorem C4_counterexample :
    handleError (some ⟨false, none, none, "boom"⟩) "Failed to search places" =
      "Failed to search places" ∧
    handleError (some ⟨false, none, none, "boom"⟩) "Failed to search places" ≠
      (⟨false, none, none, "boom"⟩ : ReqError).msg := by
  constructor
  · rfl
  · decide

/-- C4 (amended): a remote 401 yields the fixed authentication message; a
remote 429 yields the fixed rate-limit message; a remote status ≥ 500
yields a wrapped message including the operation's context string; a remote
response with a structured error body yields a message extracted from that
body; and any other failure surfaces the operation's context string (not
the original failure's message) — always as a single string description. -/
theorem C4_handleError_taxonomy :
    (∀ (e : ReqError) (m : String), e.isAxios = true → e.status = some 401 →
      handleError (some e) m = "Yelp API authentication failed") ∧
    (∀ (e : ReqError) (m : String), e.isAxios = true → e.status = some 429 →
      handleError (some e) m = "Yelp API rate limit exceeded") ∧
    (∀ (e : ReqError) (m : String) (s : Nat), e.isAxios = true →
      e.status = some s → 500 ≤ s →
      handleError (some e) m = "Yelp API server error: " ++ m) ∧
    (∀ (e : ReqError) (m d : String) (s : Nat), e.isAxios = true →
      e.status = some s → s ≠ 401 → s ≠ 429 → s < 500 →
      e.dataError = some ⟨some d⟩ → d ≠ "" →
      handleError (some e) m = "Yelp API error: " ++ d) ∧
    (∀ (e : ReqError) (m : String) (s : Nat), e.isAxios = true →
      e.status = some s → s ≠ 401 → s ≠ 429 → s < 500 → e.dataError = none →
      handleError (some e) m = m) ∧
    (∀ (e : ReqError) (m : String), e.isAxios = true → e.status = none →
      e.dataError = none → handleError (some e) m = m) ∧
    (∀ (e : ReqError) (m : String), e.isAxios = false →
      handleError (some e) m = m) ∧
    (∀ m : String, handleError none m = m) := by
  refine ⟨?_, ?_, ?_, ?_, ?_, ?_, ?_, ?_⟩
  · intro e m ha hs
    simp [handleError, ha, hs]
  · intro e m ha hs
    simp [handleError, ha, hs]
  · intro e m s ha hs h5
    have h401 : s ≠ 401 := by omega
    have h429 : s ≠ 429 := by omega
    have h0 : s ≠ 0 := by omega
    simp [handleError, ha, hs, h401, h429, h0, h5]
  · intro e m d s ha hs h401 h429 hlt hd hne
    have h5 : ¬(500 ≤ s) := by omega
    simp [handleError, ha, hs, h401, h429, h5, hd, hne]
  · intro e m s ha hs h401 h429 hlt hd
    have h5 : ¬(500 ≤ s) := by omega
    simp [handleError, ha, hs, h401, h429, h5, hd]
  · intro e m ha hs hd
    simp [handleError, ha, hs, hd]
  · intro e m ha
    simp [handleError, ha]
  · intro m
    rfl

/-- Witness for C4's amended taxonomy at concrete errors. -/
theorem C4_witness :
    handleError (some ⟨true, some 401, none, "x"⟩) "ctx" =
      "Yelp API authentication failed" ∧
    handleError (some ⟨true, some 429, none, "x"⟩) "ctx" =
      "Yelp API rate limit exceeded" ∧
    handleError (some ⟨true, some 503, none, "x"⟩) "ctx" =
      "Yelp API server error: " ++ "ctx" ∧
    handleError (some ⟨true, some 404, some ⟨some "bad request"⟩, "x"⟩) "ctx" =
      "Yelp API error: " ++ "bad request" ∧
    handleError (some ⟨true, some 404, none, "x"⟩) "ctx" = "ctx" ∧
    handleError (some ⟨false, none, none, "boom"⟩) "ctx" = "ctx" :=
  ⟨C4_handleError_taxonomy.1 ⟨true, some 401, none, "x"⟩ "ctx" rfl rfl,
   C4_handleError_taxonomy.2.1 ⟨true, some 429, none, "x"⟩ "ctx" rfl rfl,
   C4_handleError_taxonomy.2.2.1 ⟨true, some 503, none, "x"⟩ "ctx" 503 rfl rfl
     (by omega),
   C4_handleError_taxonomy.2.2.2.1 ⟨true, some 404, some ⟨some "bad request"⟩,
     "x"⟩ "ctx" "bad request" 404 rfl rfl (by decide) (by decide) (by decide)
     rfl (by decide),
   C4_handleError_taxonomy.2.2.2.2.1 ⟨true, some 404, none, "x"⟩ "ctx" 404
     rfl rfl (by decide) (by decide) (by decide) rfl,
   C4_handleError_taxonomy.2.2.2.2.2.2.1 ⟨false, none, none, "boom"⟩ "ctx"
     rfl⟩

/-- C2: in the 3-attempt retry wrapper, a failure carrying an HTTP status
below 500 is thrown after the first attempt with no retry and no backoff
sleep; a retryable failure (no status, or status ≥ 500) is retried with a
1000 ms delay after the first failure and a 2000 ms delay after the second,
for at most 3 attempts, and after a third failure the last error is
thrown. -/
theorem C2_retry_policy :
    (∀ (T : Type) (outs : Nat → Except ReqError T) (e : ReqError) (s : Nat),
      outs 0 = Except.error e → e.isAxios = true → e.status = some s →
      0 < s → s < 500 →
      retryRequest outs 3 = ⟨Except.error (some e), [], 1⟩) ∧
    (∀ (T : Type) (outs : Nat → Except ReqError T) (e : ReqError) (v : T),
      outs 0 = Except.error e → serverFailure e → outs 1 = Except.ok v →
      retryRequest outs 3 = ⟨Except.ok v, [1000], 2⟩) ∧
    (∀ (T : Type) (outs : Nat → Except ReqError T) (e0 e1 e2 : ReqError),
      outs 0 = Except.error e0 → outs 1 = Except.error e1 →
      outs 2 = Except.error e2 →
      serverFailure e0 → serverFailure e1 → serverFailure e2 →
      retryRequest outs 3 = ⟨Except.error (some e2), [1000, 2000], 3⟩) := by
  refine ⟨?_, ?_, ?_⟩
  · intro T outs e s h0 ha hs hpos hlt
    have hc : isClientError e = true := by
      simp [isClientError, ha, hs]
      omega
    simp [retryRequest, retryGo, h0, hc]
  · intro T outs e v h0 hsf h1
    have hc : isClientError e = false := isClientError_false_of_serverFailure hsf
    simp [retryRequest, retryGo, h0, h1, hc]
  · intro T outs e0 e1 e2 h0 h1 h2 hs0 hs1 hs2
    have hc0 : isClientError e0 = false := isClientError_false_of_serverFailure hs0
    have hc1 : isClientError e1 = false := isClientError_false_of_serverFailure hs1
    have hc2 : isClientError e2 = false := isClientError_false_of_serverFailure hs2
    simp [retryRequest, retryGo, h0, h1, h2, hc0, hc1, hc2]

/-- Witness for C2: a 404 is thrown after one attempt with no delays; a
steady 503 exhausts all 3 attempts with delays of 1000 ms and 2000 ms and
throws the last error. -/
theorem C2_witness :
    retryRequest (fun _ => (Except.error ⟨true, some 404, none, "nf"⟩ :
        Except ReqError Nat)) 3 =
      ⟨Except.error (some ⟨true, some 404, none, "nf"⟩), [], (1 : Nat)⟩ ∧
    retryRequest (fun _ => (Except.error ⟨true, some 503, none, "sv"⟩ :
        Except ReqError Nat)) 3 =
      ⟨Except.error (some ⟨true, some 503, none, "sv"⟩), [1000, 2000], 3⟩ ∧
    retryRequest (fun n => if n = 0 then
        Except.error ⟨true, some 503, none, "sv"⟩ else Except.ok (7 : Nat)) 3 =
      ⟨Except.ok 7, [1000], 2⟩ :=
  ⟨C2_retry_policy.1 Nat (fun _ => Except.error ⟨true, some 404, none, "nf"⟩)
      ⟨true, some 404, none, "nf"⟩ 404 rfl rfl rfl (by decide) (by decide),
   C2_retry_policy.2.2 Nat _ ⟨true, some 503, none, "sv"⟩
      ⟨true, some 503, none, "sv"⟩ ⟨true, some 503, none, "sv"⟩ rfl rfl rfl
      (Or.inr ⟨503, rfl, by omega⟩) (Or.inr ⟨503, rfl, by omega⟩)
      (Or.inr ⟨503, rfl, by omega⟩),
   C2_retry_policy.2.1 Nat _ ⟨true, some 503, none, "sv"⟩ 7 rfl
      (Or.inr ⟨503, rfl, by omega⟩) rfl⟩

/-! ## Cache behavior lemmas shared by C3 and C6 -/

theorem sendChatMessage_hit (cache : YelpCache) (params : String)
    (net : Nat → Except ReqError YelpChatResponse) (now : Int)
    (v : CacheVal) (ts : Int)
    (hl : cacheLookup cache (generateCacheKey "chat" params) = some ⟨v, ts⟩)
    (hf : now - ts ≤ CACHE_TTL) :
    sendChatMessage cache params net now = ⟨Except.ok v, cache, 0⟩ := by
  have hn : ¬(now - ts > CACHE_TTL) := not_lt.mpr hf
  simp [sendChatMessage, getFromCache, hl, hn]

theorem sendChatMessage_miss (cache : YelpCache) (params : String)
    (net : Nat → Except ReqError YelpChatResponse) (now : Int)
    (resp : YelpChatResponse)
    (hl : cacheLookup cache (generateCacheKey "chat" params) = none)
    (h0 : net 0 = Except.ok resp) :
    sendChatMessage cache params net now =
      ⟨Except.ok (CacheVal.chat (chatResultOf resp)),
       setCache cache (generateCacheKey "chat" params)
         (CacheVal.chat (chatResultOf resp)) now, 1⟩ := by
  simp [sendChatMessage, getFromCache, hl, retryRequest, retryGo, h0,
    chatResultOf]

theorem sendChatMessage_expired (cache : YelpCache) (params : String)
    (net : Nat → Except ReqError YelpChatResponse) (now : Int)
    (v : CacheVal) (ts : Int) (resp : YelpChatResponse)
    (hl : cacheLookup cache (generateCacheKey "chat" params) = some ⟨v, ts⟩)
    (hexp : now - ts > CACHE_TTL) (h0 : net 0 = Except.ok resp) :
    sendChatMessage cache params net now =
      ⟨Except.ok (CacheVal.chat (chatResultOf resp)),
       setCache (cacheErase cache (generateCacheKey "chat" params))
         (generateCacheKey "chat" params)
         (CacheVal.chat (chatResultOf resp)) now, 1⟩ := by
  simp [sendChatMessage, getFromCache, hl, hexp, retryRequest, retryGo, h0,
    chatResultOf]

theorem getPlaceDetails_hit (cache : YelpCache) (placeId params : String)
    (net : Nat → Except ReqError YelpPlaceDetailsResponse) (now : Int)
    (v : CacheVal) (ts : Int)
    (hl : cacheLookup cache (generateCacheKey "place" params) = some ⟨v, ts⟩)
    (hf : now - ts ≤ CACHE_TTL) :
    getPlaceDetails cache placeId params net now = ⟨Except.ok v, cache, 0⟩ := by
  have hn : ¬(now - ts > CACHE_TTL) := not_lt.mpr hf
  simp [getPlaceDetails, getFromCache, hl, hn]

theorem getPlaceDetails_miss (cache : YelpCache) (placeId params : String)
    (net : Nat → Except ReqError YelpPlaceDetailsResponse) (now : Int)
    (resp : YelpPlaceDetailsResponse)
    (hl : cacheLookup cache (generateCacheKey "place" params) = none)
    (h0 : net 0 = Except.ok resp) :
    getPlaceDetails cache placeId params net now =
      ⟨Except.ok (CacheVal.place (formatPlaceDetails resp)),
       setCache cache (generateCacheKey "place" params)
         (CacheVal.place (formatPlaceDetails resp)) now, 1⟩ := by
  simp [getPlaceDetails, getFromCache, hl, retryRequest, retryGo, h0]

theorem getPlaceDetails_expired (cache : YelpCache) (placeId params : String)
    (net : Nat → Except ReqError YelpPlaceDetailsResponse) (now : Int)
    (v : CacheVal) (ts : Int) (resp : YelpPlaceDetailsResponse)
    (hl : cacheLookup cache (generateCacheKey "place" params) = some ⟨v, ts⟩)
    (hexp : now - ts > CACHE_TTL) (h0 : net 0 = Except.ok resp) :
    getPlaceDetails cache placeId params net now =
      ⟨Except.ok (CacheVal.place (formatPlaceDetails resp)),
       setCache (cacheErase cache (generateCacheKey "place" params))
         (generateCacheKey "place" params)
         (CacheVal.place (formatPlaceDetails resp)) now, 1⟩ := by
  simp [getPlaceDetails, getFromCache, hl, hexp, retryRequest, retryGo, h0]

theorem searchPlaces_hit (cache : YelpCache) (params : String)
    (net : Nat → Except ReqError YelpSearchResponseT) (now : Int)
    (v : CacheVal) (ts : Int)
    (hl : cacheLookup cache (generateCacheKey "search" params) = some ⟨v, ts⟩)
    (hf : now - ts ≤ CACHE_TTL) :
    searchPlaces cache params net now = ⟨Except.ok v, cache, 0⟩ := by
  have hn : ¬(now - ts > CACHE_TTL) := not_lt.mpr hf
  simp [searchPlaces, getFromCache, hl, hn]

theorem searchPlaces_miss (cache : YelpCache) (params : String)
    (net : Nat → Except ReqError YelpSearchResponseT) (now : Int)
    (resp : YelpSearchResponseT)
    (hl : cacheLookup cache (generateCacheKey "search" params) = none)
    (h0 : net 0 = Except.ok resp) :
    searchPlaces cache params net now =
      ⟨Except.ok (CacheVal.places (resp.businesses.map formatSearchResult)),
       setCache cache (generateCacheKey "search" params)
         (CacheVal.places (resp.businesses.map formatSearchResult)) now, 1⟩ := by
  simp [searchPlaces, getFromCache, hl, retryRequest, retryGo, h0]

theorem searchPlaces_expired (cache : YelpCache) (params : String)
    (net : Nat → Except ReqError YelpSearchResponseT) (now : Int)
    (v : CacheVal) (ts : Int) (resp : YelpSearchResponseT)
    (hl : cacheLookup cache (generateCacheKey "search" params) = some ⟨v, ts⟩)
    (hexp : now - ts > CACHE_TTL) (h0 : net 0 = Except.ok resp) :
    searchPlaces cache params net now =
      ⟨Except.ok (CacheVal.places (resp.businesses.map formatSearchResult)),
       setCache (cacheErase cache (generateCacheKey "search" params))
         (generateCacheKey "search" params)
         (CacheVal.places (resp.businesses.map formatSearchResult)) now,
       1⟩ := by
  simp [searchPlaces, getFromCache, hl, hexp, retryRequest, retryGo, h0]

theorem sendChatMessage_second_call (cache : YelpCache) (params : String)
    (net net₂ : Nat → Except ReqError YelpChatResponse) (now₁ now₂ : Int)
    (resp : YelpChatResponse)
    (hl : cacheLookup cache (generateCacheKey "chat" params) = none)
    (h0 : net 0 = Except.ok resp)
    (hts : now₂ - now₁ ≤ CACHE_TTL) :
    sendChatMessage (sendChatMessage cache params net now₁).cache params
        net₂ now₂ =
      ⟨Except.ok (CacheVal.chat (chatResultOf resp)),
       (sendChatMessage cache params net now₁).cache, 0⟩ := by
  rw [sendChatMessage_miss cache params net now₁ resp hl h0]
  exact sendChatMessage_hit _ params net₂ now₂
    (CacheVal.chat (chatResultOf resp)) now₁
    (by simp [setCache]; exact cacheLookup_cacheSet_self _ _ _) hts

/-- C6: a chat response with no recommendations field normalizes to an
empty recommendation list (never an absent value), and a present list maps
`place_id` to `placeId`, `name` to `placeName`, and `relevance_score` to
`relevanceScore` element-wise. -/
theorem C6_recommendations_normalization :
    (∀ (cache : YelpCache) (params : String)
        (net : Nat → Except ReqError YelpChatResponse) (now : Int)
        (resp : YelpChatResponse),
      cacheLookup cache (generateCacheKey "chat" params) = none →
      net 0 = Except.ok resp → resp.recommendations = none →
      (sendChatMessage cache params net now).result =
        Except.ok (CacheVal.chat ⟨resp.response, []⟩)) ∧
    (∀ recs : List YelpRec,
      (parseRecommendations (some recs)).length = recs.length) ∧
    (∀ (recs : List YelpRec) (i : Nat) (h : i < recs.length),
      ((parseRecommendations (some recs)).get
          ⟨i, by rw [parseRecommendations_length]; exact h⟩).placeId =
        (recs.get ⟨i, h⟩).place_id ∧
      ((parseRecommendations (some recs)).get
          ⟨i, by rw [parseRecommendations_length]; exact h⟩).placeName =
        (recs.get ⟨i, h⟩).name ∧
      ((parseRecommendations (some recs)).get
          ⟨i, by rw [parseRecommendations_length]; exact h⟩).relevanceScore =
        (recs.get ⟨i, h⟩).relevance_score ∧
      ((parseRecommendations (some recs)).get
          ⟨i, by rw [parseRecommendations_length]; exact h⟩).reasoning =
        (recs.get ⟨i, h⟩).reasoning) := by
  refine ⟨?_, parseRecommendations_length, ?_⟩
  · intro cache params net now resp hl h0 hrec
    rw [sendChatMessage_miss cache params net now resp hl h0]
    simp [chatResultOf, hrec, parseRecommendations]
  · intro recs i h
    simp [parseRecommendations, List.getElem_map]

/-- Witness for C6: a response with an absent recommendations list yields
`[]`; a one-element list is field-renamed. -/
theorem C6_witness :
    (sendChatMessage [] "p" (fun _ => Except.ok ⟨"hi", none⟩) 0).result =
      Except.ok (CacheVal.chat ⟨"hi", []⟩) ∧
    ((parseRecommendations (some [⟨"pl1", "Cafe", 9/10, none⟩])).get
        ⟨0, by rw [parseRecommendations_length]; decide⟩).placeId = "pl1" :=
  ⟨C6_recommendations_normalization.1 [] "p"
      (fun _ => Except.ok ⟨"hi", none⟩) 0 ⟨"hi", none⟩ rfl rfl rfl,
   (C6_recommendations_normalization.2.2 [⟨"pl1", "Cafe", 9/10, none⟩] 0
      (by decide)).1⟩

/-- C3: for each operation, a cache entry at most 5 minutes old is returned
with no network call; an absent or expired entry leads to a network call
whose successful result overwrites the cache entry with a fresh timestamp;
and a second identical call within the TTL of a first successful call
returns the cached value with no further network call. -/
theorem C3_cache_ttl :
    (∀ (cache : YelpCache) (params : String)
        (net : Nat → Except ReqError YelpChatResponse) (now : Int)
        (v : CacheVal) (ts : Int),
      cacheLookup cache (generateCacheKey "chat" params) = some ⟨v, ts⟩ →
      now - ts ≤ CACHE_TTL →
      sendChatMessage cache params net now = ⟨Except.ok v, cache, 0⟩) ∧
    (∀ (cache : YelpCache) (params : String)
        (net : Nat → Except ReqError YelpChatResponse) (now : Int)
        (resp : YelpChatResponse),
      cacheLookup cache (generateCacheKey "chat" params) = none →
      net 0 = Except.ok resp →
      sendChatMessage cache params net now =
        ⟨Except.ok (CacheVal.chat (chatResultOf resp)),
         setCache cache (generateCacheKey "chat" params)
           (CacheVal.chat (chatResultOf resp)) now, 1⟩) ∧
    (∀ (cache : YelpCache) (params : String)
        (net : Nat → Except ReqError YelpChatResponse) (now : Int)
        (v : CacheVal) (ts : Int) (resp : YelpChatResponse),
      cacheLookup cache (generateCacheKey "chat" params) = some ⟨v, ts⟩ →
      now - ts > CACHE_TTL →
      net 0 = Except.ok resp →
      sendChatMessage cache params net now =
        ⟨Except.ok (CacheVal.chat (chatResultOf resp)),
         setCache (cacheErase cache (generateCacheKey "chat" params))
           (generateCacheKey "chat" params)
           (CacheVal.chat (chatResultOf resp)) now, 1⟩) ∧
    (∀ (cache : YelpCache) (params : String)
        (net net₂ : Nat → Except ReqError YelpChatResponse) (now₁ now₂ : Int)
        (resp : YelpChatResponse),
      cacheLookup cache (generateCacheKey "chat" params) = none →
      net 0 = Except.ok resp →
      now₂ - now₁ ≤ CACHE_TTL →
      sendChatMessage (sendChatMessage cache params net now₁).cache params
          net₂ now₂ =
        ⟨Except.ok (CacheVal.chat (chatResultOf resp)),
         (sendChatMessage cache params net now₁).cache, 0⟩) ∧
    (∀ (cache : YelpCache) (placeId params : String)
        (net : Nat → Except ReqError YelpPlaceDetailsResponse) (now : Int)
        (v : CacheVal) (ts : Int),
      cacheLookup cache (generateCacheKey "place" params) = some ⟨v, ts⟩ →
      now - ts ≤ CACHE_TTL →
      getPlaceDetails cache placeId params net now = ⟨Except.ok v, cache, 0⟩) ∧
    (∀ (cache : YelpCache) (placeId params : String)
        (net : Nat → Except ReqError YelpPlaceDetailsResponse) (now : Int)
        (resp : YelpPlaceDetailsResponse),
      cacheLookup cache (generateCacheKey "place" params) = none →
      net 0 = Except.ok resp →
      getPlaceDetails cache placeId params net now =
        ⟨Except.ok (CacheVal.place (formatPlaceDetails resp)),
         setCache cache (generateCacheKey "place" params)
           (CacheVal.place (formatPlaceDetails resp)) now, 1⟩) ∧
    (∀ (cache : YelpCache) (placeId params : String)
        (net : Nat → Except ReqError YelpPlaceDetailsResponse) (now : Int)
        (v : CacheVal) (ts : Int) (resp : YelpPlaceDetailsResponse),
      cacheLookup cache (generateCacheKey "place" params) = some ⟨v, ts⟩ →
      now - ts > CACHE_TTL →
      net 0 = Except.ok resp →
      getPlaceDetails cache placeId params net now =
        ⟨Except.ok (CacheVal.place (formatPlaceDetails resp)),
         setCache (cacheErase cache (generateCacheKey "place" params))
           (generateCacheKey "place" params)
           (CacheVal.place (formatPlaceDetails resp)) now, 1⟩) ∧
    (∀ (cache : YelpCache) (params : String)
        (net : Nat → Except ReqError YelpSearchResponseT) (now : Int)
        (v : CacheVal) (ts : Int),
      cacheLookup cache (generateCacheKey "search" params) = some ⟨v, ts⟩ →
      now - ts ≤ CACHE_TTL →
      searchPlaces cache params net now = ⟨Except.ok v, cache, 0⟩) ∧
    (∀ (cache : YelpCache) (params : String)
        (net : Nat → Except ReqError YelpSearchResponseT) (now : Int)
        (resp : YelpSearchResponseT),
      cacheLookup cache (generateCacheKey "search" params) = none →
      net 0 = Except.ok resp →
      searchPlaces cache params net now =
        ⟨Except.ok (CacheVal.places (resp.businesses.map formatSearchResult)),
         setCache cache (generateCacheKey "search" params)
           (CacheVal.places (resp.businesses.map formatSearchResult)) now,
         1⟩) ∧
    (∀ (cache : YelpCache) (params : String)
        (net : Nat → Except ReqError YelpSearchResponseT) (now : Int)
        (v : CacheVal) (ts : Int) (resp : YelpSearchResponseT),
      cacheLookup cache (generateCacheKey "search" params) = some ⟨v, ts⟩ →
      now - ts > CACHE_TTL →
      net 0 = Except.ok resp →
      searchPlaces cache params net now =
        ⟨Except.ok (CacheVal.places (resp.businesses.map formatSearchResult)),
         setCache (cacheErase cache (generateCacheKey "search" params))
           (generateCacheKey "search" params)
           (CacheVal.places (resp.businesses.map formatSearchResult)) now,
         1⟩) :=
  ⟨sendChatMessage_hit, sendChatMessage_miss, sendChatMessage_expired,
   sendChatMessage_second_call, getPlaceDetails_hit, getPlaceDetails_miss,
   getPlaceDetails_expired, searchPlaces_hit, searchPlaces_miss,
   searchPlaces_expired⟩

/-- Witness for C3: a first chat call on an empty cache issues one network
call and caches its result; a second identical call at the TTL boundary
returns it with no network call; a fresh place entry is a hit; a search
call on an empty cache issues a network call; and a chat, place, or search
entry one millisecond past the TTL is refetched and overwritten. -/
theorem C3_witness :
    sendChatMessage [] "p" (fun _ => Except.ok ⟨"hi", none⟩) 0 =
      ⟨Except.ok (CacheVal.chat (chatResultOf ⟨"hi", none⟩)),
       setCache [] (generateCacheKey "chat" "p")
         (CacheVal.chat (chatResultOf ⟨"hi", none⟩)) 0, 1⟩ ∧
    sendChatMessage
        (sendChatMessage [] "p" (fun _ => Except.ok ⟨"hi", none⟩) 0).cache
        "p" (fun _ => Except.ok ⟨"other", none⟩) 300000 =
      ⟨Except.ok (CacheVal.chat (chatResultOf ⟨"hi", none⟩)),
       (sendChatMessage [] "p" (fun _ => Except.ok ⟨"hi", none⟩) 0).cache,
       0⟩ ∧
    getPlaceDetails
        [(generateCacheKey "place" "q", ⟨CacheVal.places [], 0⟩)] "pid" "q"
        (fun _ => Except.error ⟨true, none, none, "x"⟩) 5 =
      ⟨Except.ok (CacheVal.places []),
       [(generateCacheKey "place" "q", ⟨CacheVal.places [], 0⟩)], 0⟩ ∧
    searchPlaces [] "s" (fun _ => Except.ok ⟨[]⟩) 7 =
      ⟨Except.ok (CacheVal.places []),
       setCache [] (generateCacheKey "search" "s") (CacheVal.places []) 7,
       1⟩ ∧
    sendChatMessage [(generateCacheKey "chat" "p",
        ⟨CacheVal.chat ⟨"old", []⟩, 0⟩)] "p"
        (fun _ => Except.ok ⟨"new", none⟩) 300001 =
      ⟨Except.ok (CacheVal.chat (chatResultOf ⟨"new", none⟩)),
       setCache (cacheErase [(generateCacheKey "chat" "p",
           ⟨CacheVal.chat ⟨"old", []⟩, 0⟩)] (generateCacheKey "chat" "p"))
         (generateCacheKey "chat" "p")
         (CacheVal.chat (chatResultOf ⟨"new", none⟩)) 300001, 1⟩ ∧
    getPlaceDetails [(generateCacheKey "place" "q",
        ⟨CacheVal.places [], 0⟩)] "pid" "q"
        (fun _ => Except.ok
          ⟨"pid", "nm", 4, ⟨1, 2⟩, ⟨"a", "c", "s", "z"⟩, [], none, none,
            none, none⟩) 300001 =
      ⟨Except.ok (CacheVal.place (formatPlaceDetails
          ⟨"pid", "nm", 4, ⟨1, 2⟩, ⟨"a", "c", "s", "z"⟩, [], none, none,
            none, none⟩)),
       setCache (cacheErase [(generateCacheKey "place" "q",
           ⟨CacheVal.places [], 0⟩)] (generateCacheKey "place" "q"))
         (generateCacheKey "place" "q")
         (CacheVal.place (formatPlaceDetails
           ⟨"pid", "nm", 4, ⟨1, 2⟩, ⟨"a", "c", "s", "z"⟩, [], none, none,
             none, none⟩)) 300001, 1⟩ ∧
    searchPlaces [(generateCacheKey "search" "s",
        ⟨CacheVal.places [], 0⟩)] "s" (fun _ => Except.ok ⟨[]⟩) 300001 =
      ⟨Except.ok (CacheVal.places []),
       setCache (cacheErase [(generateCacheKey "search" "s",
           ⟨CacheVal.places [], 0⟩)] (generateCacheKey "search" "s"))
         (generateCacheKey "search" "s") (CacheVal.places []) 300001, 1⟩ :=
  ⟨C3_cache_ttl.2.1 [] "p" (fun _ => Except.ok ⟨"hi", none⟩) 0
      ⟨"hi", none⟩ rfl rfl,
   C3_cache_ttl.2.2.2.1 [] "p" (fun _ => Except.ok ⟨"hi", none⟩)
      (fun _ => Except.ok ⟨"other", none⟩) 0 300000 ⟨"hi", none⟩ rfl rfl
      (by decide),
   C3_cache_ttl.2.2.2.2.1
      [(generateCacheKey "place" "q", ⟨CacheVal.places [], 0⟩)] "pid" "q"
      (fun _ => Except.error ⟨true, none, none, "x"⟩) 5 (CacheVal.places [])
      0 (by decide) (by decide),
   C3_cache_ttl.2.2.2.2.2.2.2.2.1 [] "s" (fun _ => Except.ok ⟨[]⟩) 7 ⟨[]⟩
      rfl rfl,
   C3_cache_ttl.2.2.1 [(generateCacheKey "chat" "p",
        ⟨CacheVal.chat ⟨"old", []⟩, 0⟩)] "p"
      (fun _ => Except.ok ⟨"new", none⟩) 300001 (CacheVal.chat ⟨"old", []⟩)
      0 ⟨"new", none⟩ (by decide) (by decide) rfl,
   C3_cache_ttl.2.2.2.2.2.2.1 [(generateCacheKey "place" "q",
        ⟨CacheVal.places [], 0⟩)] "pid" "q"
      (fun _ => Except.ok
        ⟨"pid", "nm", 4, ⟨1, 2⟩, ⟨"a", "c", "s", "z"⟩, [], none, none,
          none, none⟩) 300001 (CacheVal.places []) 0
      ⟨"pid", "nm", 4, ⟨1, 2⟩, ⟨"a", "c", "s", "z"⟩, [], none, none,
        none, none⟩ (by decide) (by decide) rfl,
   C3_cache_ttl.2.2.2.2.2.2.2.2.2 [(generateCacheKey "search" "s",
        ⟨CacheVal.places [], 0⟩)] "s" (fun _ => Except.ok ⟨[]⟩) 300001
      (CacheVal.places []) 0 ⟨[]⟩ (by decide) (by decide) rfl⟩
